import Mathlib

/-!
Verification of `src/JanetHelper/JanetHelper.c` against its specification.

The program is a single-invocation privileged helper.  We embed it shallowly:
the inputs a run depends on (effective uid, real uid, argv, and the values the
OS calls `system`, `chmod`, `chown`, `strerror` would return) are collected in
a `World`; running `main` is the pure function `mainRun : World → RunResult`,
whose result records the value `main` returns, every message passed to
`log_message`, every message printed to stderr, and every privileged OS action
the run performs, in order.
-/

namespace JanetHelper

/-- A privileged OS action performed by the helper.  `system cmdline` models
the C call `system(cmdline)`, which passes the string to the shell
(`/bin/sh -c cmdline`); `chmodCall`/`chownCall` model the direct
`chmod(2)`/`chown(2)` system calls. -/
inductive Action where
  | system (cmdline : String)
  | chmodCall (path : String) (mode : Nat)
  | chownCall (path : String) (uid gid : Nat)
  deriving DecidableEq

/-- The environment a single invocation of the helper runs in: the process
credentials, the argument vector, and the responses of the OS primitives the
program may call.  `sysRes c` is the status `system(c)` would return,
`chmodRes p m` / `chownRes p u g` the return values of `chmod`/`chown`, and
`errText` the `strerror(errno)` text after a failed call. -/
structure World where
  euid : Nat
  uid : Nat
  argv : List String
  sysRes : String → Int
  chmodRes : String → Nat → Int
  chownRes : String → Nat → Nat → Int
  errText : String

/-- The observable result of one invocation: the value returned from `main`
(`code`), the messages passed to `log_message` (written to the audit log file
and to syslog), the messages printed to stderr, and the privileged actions
performed, each in program order. -/
structure RunResult where
  code : Int
  logs : List String
  stderrMsgs : List String
  actions : List Action
  deriving DecidableEq

/-- Source function `is_authorized` (lines 31–35): the body ignores the caller
uid and returns `true` unconditionally. -/
def is_authorized (_caller_uid : Nat) : Bool :=
  true

/-- Value of one octal digit, `none` for any other character.  Used to model
`strtol(s, NULL, 8)`. -/
def octDigit? (c : Char) : Option Nat :=
  if '0' ≤ c ∧ c ≤ '7' then some (c.toNat - 48) else none

/-- Value of one decimal digit, `none` for any other character.  Used to model
`atoi` / `strtol(s, NULL, 10)`. -/
def decDigit? (c : Char) : Option Nat :=
  if '0' ≤ c ∧ c ≤ '9' then some (c.toNat - 48) else none

/-- Accumulate leading digits, stopping at the first non-digit, as the
conversion loop of `strtol` does. -/
def digitsLoop (dig : Char → Option Nat) (base : Nat) : List Char → Nat → Nat
  | [], acc => acc
  | c :: cs, acc =>
    match dig c with
    | some d => digitsLoop dig base cs (acc * base + d)
    | none => acc

/-- C `isspace` characters skipped by `strtol`/`atoi` before the number. -/
def isSpaceChar (c : Char) : Bool :=
  c = ' ' ∨ c = '\t' ∨ c = '\n' ∨ c = '\x0b' ∨ c = '\x0c' ∨ c = '\r'

/-- Shared shape of `strtol(s, NULL, base)` and `atoi(s)` (no overflow, which
the claims' inputs never reach): skip leading whitespace, read an optional
sign, then accumulate digits of the base until the first non-digit; with no
valid digits the result is 0. -/
def strtolGen (dig : Char → Option Nat) (base : Nat) (s : String) : Int :=
  let cs := s.data.dropWhile isSpaceChar
  match cs with
  | '-' :: rest => -(digitsLoop dig base rest 0 : Int)
  | '+' :: rest => (digitsLoop dig base rest 0 : Int)
  | rest => (digitsLoop dig base rest 0 : Int)

/-- Model of `strtol(s, NULL, 8)` as used at source line 134. -/
def strtol8 (s : String) : Int :=
  strtolGen octDigit? 8 s

/-- Model of `atoi(s)` as used at source lines 144–145. -/
def atoi (s : String) : Int :=
  strtolGen decDigit? 10 s

/-- The cast `(mode_t)`/`(uid_t)`/`(gid_t)` applied to a (possibly negative)
`long`/`int`: reduction into the unsigned 32-bit range. -/
def toU32 (v : Int) : Nat :=
  (v % (2 ^ 32)).toNat

/-- Octal (`%o`) formatting used in the chmod log line (source line 55). -/
def toOctal (n : Nat) : String :=
  String.mk (Nat.toDigits 8 n)

/-- Source function `execute_command` (lines 38–50): log the command, call
`system(command)`, log the raw result, and return it.  The returned pair is
(result of `system`, log messages in order). -/
def execute_command (sys : String → Int) (command : String) : Int × List String :=
  let result := sys command
  (result,
    ["Executing command: " ++ command,
     "Command execution result: " ++ toString result])

/-- Source function `modify_permissions` (lines 53–68): log the intent, call
`chmod(path, mode)`, log failure (with `strerror(errno)` text) or success, and
return `chmod`'s result. -/
def modify_permissions (chmodRes : String → Nat → Int) (errText : String)
    (path : String) (mode : Nat) : Int × List String :=
  let result := chmodRes path mode
  (result,
    ["Modifying permissions for " ++ path ++ " to " ++ toOctal mode] ++
      (if result ≠ 0 then ["Failed to modify permissions: " ++ errText]
       else ["Permissions modified successfully"]))

/-- Source function `change_ownership` (lines 71–86): log the intent, call
`chown(path, uid, gid)`, log failure or success, and return `chown`'s
result. -/
def change_ownership (chownRes : String → Nat → Nat → Int) (errText : String)
    (path : String) (uid gid : Nat) : Int × List String :=
  let result := chownRes path uid gid
  (result,
    ["Changing ownership of " ++ path ++ " to UID " ++ toString uid ++
        ", GID " ++ toString gid] ++
      (if result ≠ 0 then ["Failed to change ownership: " ++ errText]
       else ["Ownership changed successfully"]))

/-- Source function `main` (lines 88–160), as a pure function of the `World`.
Branches appear in source order: the root (`geteuid`) check, the
`is_authorized` check, the `argc < 2` check, then dispatch on `argv[1]` to the
`exec` / `chmod` / `chown` handlers or the unknown-command error.  Each error
branch records its `log_message` text and its stderr text and returns 1; the
handlers record the privileged action they perform and return the underlying
call's result. -/
def mainRun (w : World) : RunResult :=
  if w.euid ≠ 0 then
    { code := 1,
      logs := ["Error: JanetHelper must be run as root"],
      stderrMsgs := ["Error: JanetHelper must be run as root"],
      actions := [] }
  else if ¬ is_authorized w.uid then
    { code := 1,
      logs := ["Error: Unauthorized caller"],
      stderrMsgs := ["Error: Unauthorized caller"],
      actions := [] }
  else if w.argv.length < 2 then
    { code := 1,
      logs := ["Error: No command specified"],
      stderrMsgs := ["Usage: " ++ w.argv.getD 0 "" ++ " <command> [args...]"],
      actions := [] }
  else
    let command := w.argv.getD 1 ""
    if command = "exec" then
      if w.argv.length < 3 then
        { code := 1,
          logs := ["Error: No command to execute specified"],
          stderrMsgs := ["Usage: " ++ w.argv.getD 0 "" ++ " exec <command>"],
          actions := [] }
      else
        let cmd := w.argv.getD 2 ""
        let r := execute_command w.sysRes cmd
        { code := r.1, logs := r.2, stderrMsgs := [],
          actions := [Action.system cmd] }
    else if command = "chmod" then
      if w.argv.length < 4 then
        { code := 1,
          logs := ["Error: Missing arguments for chmod"],
          stderrMsgs := ["Usage: " ++ w.argv.getD 0 "" ++ " chmod <mode> <path>"],
          actions := [] }
      else
        let mode := toU32 (strtol8 (w.argv.getD 2 ""))
        let path := w.argv.getD 3 ""
        let r := modify_permissions w.chmodRes w.errText path mode
        { code := r.1, logs := r.2, stderrMsgs := [],
          actions := [Action.chmodCall path mode] }
    else if command = "chown" then
      if w.argv.length < 5 then
        { code := 1,
          logs := ["Error: Missing arguments for chown"],
          stderrMsgs := ["Usage: " ++ w.argv.getD 0 "" ++ " chown <uid> <gid> <path>"],
          actions := [] }
      else
        let uid := toU32 (atoi (w.argv.getD 2 ""))
        let gid := toU32 (atoi (w.argv.getD 3 ""))
        let path := w.argv.getD 4 ""
        let r := change_ownership w.chownRes w.errText path uid gid
        { code := r.1, logs := r.2, stderrMsgs := [],
          actions := [Action.chownCall path uid gid] }
    else
      { code := 1,
        logs := ["Error: Unknown command: " ++ command],
        stderrMsgs := ["Error: Unknown command: " ++ command],
        actions := [] }

/-- The POSIX exit status of the process: the low 8 bits of the value
returned from `main`. -/
def processExitCode (w : World) : Nat :=
  ((mainRun w).code % 256).toNat

/-! ### The audit-log file format (`log_message`, source lines 16–28)

`log_message` appends `"[" ++ strftime("%Y-%m-%d %H:%M:%S") ++ "] " ++ msg ++ "\n"`
to the log file.  We model the broken-down wall-clock time as a `TimeStamp`
and `strftime`'s output for that format string (zero-padded two-digit fields,
the year printed in full — four digits for years 1000–9999). -/

/-- Broken-down wall-clock time as produced by `localtime`. -/
structure TimeStamp where
  year : Nat
  month : Nat
  day : Nat
  hour : Nat
  minute : Nat
  second : Nat

/-- Zero-padded two-digit decimal field, as `strftime` prints `%m`, `%d`,
`%H`, `%M`, `%S`. -/
def pad2 (n : Nat) : String :=
  ⟨[Nat.digitChar (n / 10 % 10), Nat.digitChar (n % 10)]⟩

/-- Four-digit decimal field: `strftime`'s `%Y` for years 1000–9999. -/
def pad4 (n : Nat) : String :=
  ⟨[Nat.digitChar (n / 1000 % 10), Nat.digitChar (n / 100 % 10),
    Nat.digitChar (n / 10 % 10), Nat.digitChar (n % 10)]⟩

/-- Model of `strftime(buf, _, "%Y-%m-%d %H:%M:%S", tm)` (source line 21). -/
def strftimeYmdHMS (t : TimeStamp) : String :=
  pad4 t.year ++ "-" ++ pad2 t.month ++ "-" ++ pad2 t.day ++ " " ++
    pad2 t.hour ++ ":" ++ pad2 t.minute ++ ":" ++ pad2 t.second

/-- The text `fprintf(log_file, "[%s] %s\n", time_str, message)` appends to
the audit-log file for one `log_message` call at wall-clock time `t`
(source line 22).  The file's content is the concatenation of these texts
over the calls recorded in `RunResult.logs`. -/
def logFileText (t : TimeStamp) (message : String) : String :=
  "[" ++ strftimeYmdHMS t ++ "] " ++ message ++ "\n"

/-- Split a character stream at newline characters; the last segment is the
residue after the final newline (empty when the text ends in a newline). -/
def splitLines : List Char → List (List Char)
  | [] => [[]]
  | c :: cs =>
    if c = '\n' then [] :: splitLines cs
    else
      match splitLines cs with
      | [] => [[c]]
      | l :: ls => (c :: l) :: ls

/-- The complete lines a piece of appended text contributes to the log file.
Every `log_message` write ends in `'\n'`, so the final (empty) residue after
the last newline is not a written line and is dropped. -/
def fileLines (s : String) : List String :=
  ((splitLines s.data).dropLast).map String.mk

/-- ASCII decimal digit test. -/
def isDig (c : Char) : Bool :=
  48 ≤ c.toNat && c.toNat ≤ 57

/-- One position of the spec's log-line layout: either a decimal digit or a
fixed literal character. -/
inductive FSpec where
  | dig
  | lit (c : Char)

/-- Check that a line starts with the given layout (any trailing characters
are the `<message>` part and unconstrained). -/
def checkShape : List FSpec → List Char → Bool
  | [], _ => true
  | _ :: _, [] => false
  | FSpec.dig :: ps, c :: cs => isDig c && checkShape ps cs
  | FSpec.lit a :: ps, c :: cs => c == a && checkShape ps cs

/-- The layout the spec prescribes for every audit-log line:
`[YYYY-MM-DD HH:MM:SS] ` followed by the message. -/
def formatShape : List FSpec :=
  [.lit '[', .dig, .dig, .dig, .dig, .lit '-', .dig, .dig, .lit '-',
   .dig, .dig, .lit ' ', .dig, .dig, .lit ':', .dig, .dig, .lit ':',
   .dig, .dig, .lit ']', .lit ' ']

/-- Decides whether a log-file line has the spec's format
`[YYYY-MM-DD HH:MM:SS] <message>`. -/
def matchesFormat (line : String) : Bool :=
  checkShape formatShape line.data

/-! ### Spec-side definitions and concrete inputs used by the claims -/

/-- Modelled from the amended exit-code claim: usage errors (missing or
unknown arguments), the non-root check and authorization denial exit with
status 1; a `chmod`/`chown` run exits 0 when the underlying call returns 0
and 255 when it fails (the `-1` return seen as an exit status); an `exec`
run exits with the low 8 bits of the raw status `system` returned. -/
def amendedExitCode (w : World) : Nat :=
  if w.euid ≠ 0 then 1
  else if ¬ is_authorized w.uid then 1
  else if w.argv.length < 2 then 1
  else if w.argv.getD 1 "" = "exec" then
    if w.argv.length < 3 then 1
    else ((w.sysRes (w.argv.getD 2 "")) % 256).toNat
  else if w.argv.getD 1 "" = "chmod" then
    if w.argv.length < 4 then 1
    else if w.chmodRes (w.argv.getD 3 "") (toU32 (strtol8 (w.argv.getD 2 ""))) = 0
      then 0 else 255
  else if w.argv.getD 1 "" = "chown" then
    if w.argv.length < 5 then 1
    else if w.chownRes (w.argv.getD 4 "") (toU32 (atoi (w.argv.getD 2 "")))
        (toU32 (atoi (w.argv.getD 3 ""))) = 0
      then 0 else 255
  else 1

/-- Invocation `JanetHelper exec "rm -rf /"` by an ordinary caller
(uid 501), run as root; the spawned shell reports status 0. -/
def rmWorld : World :=
  { euid := 0, uid := 501, argv := ["JanetHelper", "exec", "rm -rf /"],
    sysRes := fun _ => 0, chmodRes := fun _ _ => 0,
    chownRes := fun _ _ _ => 0, errText := "" }

/-- Invocation `JanetHelper exec "/bin/echo hi"` run as root. -/
def echoWorld : World :=
  { euid := 0, uid := 501, argv := ["JanetHelper", "exec", "/bin/echo hi"],
    sysRes := fun _ => 0, chmodRes := fun _ _ => 0,
    chownRes := fun _ _ _ => 0, errText := "" }

/-- Invocation `JanetHelper chmod 999 /tmp/f` run as root: `999` is not a
valid octal numeral.  `chmod(2)` itself reports success. -/
def badOctalWorld : World :=
  { euid := 0, uid := 501, argv := ["JanetHelper", "chmod", "999", "/tmp/f"],
    sysRes := fun _ => 0, chmodRes := fun _ _ => 0,
    chownRes := fun _ _ _ => 0, errText := "" }

/-- Invocation `JanetHelper chmod 755 /nonexistent` run as root, where
`chmod(2)` fails (returns -1, `errno` text "No such file or directory"). -/
def chmodFailWorld : World :=
  { euid := 0, uid := 501,
    argv := ["JanetHelper", "chmod", "755", "/nonexistent"],
    sysRes := fun _ => 0, chmodRes := fun _ _ => -1,
    chownRes := fun _ _ _ => 0, errText := "No such file or directory" }

/-- A world whose `chmod`/`chown` calls always fail with -1, used to
instantiate the exit-code characterization. -/
def chownFailWorld : World :=
  { euid := 0, uid := 501,
    argv := ["JanetHelper", "chown", "1000", "1000", "/etc/shadow"],
    sysRes := fun _ => 0, chmodRes := fun _ _ => -1,
    chownRes := fun _ _ _ => -1, errText := "Operation not permitted" }

/-- Invocation `JanetHelper frobnicate` run as root: an unknown verb. -/
def unknownVerbWorld : World :=
  { euid := 0, uid := 501, argv := ["JanetHelper", "frobnicate"],
    sysRes := fun _ => 0, chmodRes := fun _ _ => 0,
    chownRes := fun _ _ _ => 0, errText := "" }

/-- Invocation of the helper by a non-root process (euid 1000). -/
def nonRootWorld : World :=
  { euid := 1000, uid := 1000, argv := ["JanetHelper", "chmod", "755", "/tmp/f"],
    sysRes := fun _ => 0, chmodRes := fun _ _ => 0,
    chownRes := fun _ _ _ => 0, errText := "" }

/-- Invocation `JanetHelper exec` of a command string that contains a
newline character, run as root. -/
def newlineWorld : World :=
  { euid := 0, uid := 501, argv := ["JanetHelper", "exec", "a\nb"],
    sysRes := fun _ => 0, chmodRes := fun _ _ => 0,
    chownRes := fun _ _ _ => 0, errText := "" }

/-- A sample wall-clock time. -/
def sampleTime : TimeStamp :=
  { year := 2025, month := 10, day := 11, hour := 12, minute := 30, second := 5 }

/-! ## Helper lemmas -/

theorem isDig_digitChar_mod (n : Nat) : isDig (Nat.digitChar (n % 10)) = true := by
  have h : n % 10 < 10 := Nat.mod_lt _ (by decide)
  interval_cases h2 : n % 10 <;> decide

theorem newline_ne_digitChar_mod (n : Nat) : ('\n' : Char) ≠ Nat.digitChar (n % 10) := by
  have h : n % 10 < 10 := Nat.mod_lt _ (by decide)
  interval_cases h2 : n % 10 <;> decide

theorem splitLines_single (l : List Char) (h : '\n' ∉ l) :
    splitLines (l ++ ['\n']) = [l, []] := by
  induction l with
  | nil => rfl
  | cons c cs ih =>
    have hc : c ≠ '\n' := fun hch => h (hch ▸ List.mem_cons_self c cs)
    have hcs : '\n' ∉ cs := fun hm => h (List.mem_cons_of_mem _ hm)
    simp [splitLines, hc, ih hcs]

theorem strftime_data (t : TimeStamp) :
    (strftimeYmdHMS t).data =
      [Nat.digitChar (t.year / 1000 % 10), Nat.digitChar (t.year / 100 % 10),
       Nat.digitChar (t.year / 10 % 10), Nat.digitChar (t.year % 10), '-',
       Nat.digitChar (t.month / 10 % 10), Nat.digitChar (t.month % 10), '-',
       Nat.digitChar (t.day / 10 % 10), Nat.digitChar (t.day % 10), ' ',
       Nat.digitChar (t.hour / 10 % 10), Nat.digitChar (t.hour % 10), ':',
       Nat.digitChar (t.minute / 10 % 10), Nat.digitChar (t.minute % 10), ':',
       Nat.digitChar (t.second / 10 % 10), Nat.digitChar (t.second % 10)] := by
  simp [strftimeYmdHMS, pad4, pad2, String.data_append]

theorem newline_not_mem_strftime (t : TimeStamp) :
    '\n' ∉ (strftimeYmdHMS t).data := by
  rw [strftime_data]
  simp [List.mem_cons, newline_ne_digitChar_mod]

theorem line_data (t : TimeStamp) (msg : String) :
    ("[" ++ strftimeYmdHMS t ++ "] " ++ msg).data =
      '[' :: ((strftimeYmdHMS t).data ++ ']' :: ' ' :: msg.data) := by
  simp [String.data_append]

theorem logFileText_data (t : TimeStamp) (msg : String) :
    (logFileText t msg).data =
      ('[' :: ((strftimeYmdHMS t).data ++ ']' :: ' ' :: msg.data)) ++ ['\n'] := by
  simp [logFileText, String.data_append]

theorem logs_ite (c : Prop) [Decidable c] (a b : RunResult) :
    (if c then a else b).logs = if c then a.logs else b.logs :=
  apply_ite RunResult.logs c a b

theorem code_ite (c : Prop) [Decidable c] (a b : RunResult) :
    (if c then a else b).code = if c then a.code else b.code :=
  apply_ite RunResult.code c a b

theorem emod_toNat_ite (c : Prop) [Decidable c] (a b : Int) :
    (((if c then a else b) : Int) % 256).toNat =
      if c then (a % 256).toNat else (b % 256).toNat := by
  split_ifs <;> rfl

theorem neg_one_emod_256 : (((-1 : Int)) % 256).toNat = 255 := by decide

theorem mainRun_exec_eval (eu u : Nat) (prog cmd : String) (rest : List String)
    (sys : String → Int) (ch : String → Nat → Int) (co : String → Nat → Nat → Int)
    (e : String) (he : eu = 0) :
    mainRun { euid := eu, uid := u, argv := prog :: "exec" :: cmd :: rest,
              sysRes := sys, chmodRes := ch, chownRes := co, errText := e } =
      { code := sys cmd,
        logs := ["Executing command: " ++ cmd,
                 "Command execution result: " ++ toString (sys cmd)],
        stderrMsgs := [], actions := [Action.system cmd] } := by
  subst he
  simp [mainRun, execute_command, is_authorized]
  rw [if_neg (by omega), if_neg (by omega)]

/-! ## The claims -/

/-- Claim C1 (code bug): the claim says every identity not on the allow-list
is denied, but the source's decision function `is_authorized` returns `true`
(Allow) for every caller uid whatsoever — there is no allow-list and no
identity is ever denied. -/
theorem is_authorized_allows_every_uid : ∀ u : Nat, is_authorized u = true :=
  fun _ => rfl

/-- Claim C2 (code bug): the claim says a `RunCommand` whose command is not
allow-listed is denied with no child process spawned; but running
`JanetHelper exec "rm -rf /"` as root dispatches the command string to
`system` — a child process is spawned — and the run even exits 0 when the
shell reports success. -/
theorem exec_rm_rf_spawns_process :
    (mainRun rmWorld).actions = [Action.system "rm -rf /"] ∧
      (mainRun rmWorld).code = 0 :=
  ⟨rfl, rfl⟩

/-- Claim C3 (code bug): the claim says an approved `RunCommand` is executed
directly with an explicit argument vector and never via a shell; but the
dispatcher hands the whole command line to `system` (which runs
`/bin/sh -c`), and returns `system`'s raw wait status. -/
theorem exec_runs_via_shell :
    (mainRun echoWorld).actions = [Action.system "/bin/echo hi"] ∧
      (mainRun echoWorld).code = echoWorld.sysRes "/bin/echo hi" :=
  ⟨rfl, rfl⟩

/-- Claim C4 (code bug): the claim says a chmod mode that is not valid octal
is rejected as a usage error before dispatch; but `JanetHelper chmod 999
/tmp/f` is dispatched: `strtol("999", NULL, 8)` finds no octal digit and
yields 0, and `chmod("/tmp/f", 0)` is invoked with exit status 0. -/
theorem chmod_invalid_octal_dispatched :
    strtol8 "999" = 0 ∧
      (mainRun badOctalWorld).actions = [Action.chmodCall "/tmp/f" 0] ∧
      (mainRun badOctalWorld).code = 0 :=
  ⟨rfl, rfl, rfl⟩

/-- Claim C5 counterexample: the claim says a chmod failure exits with status
1; but when `chmod` fails, `main` returns chmod's -1 and the process exit
status is 255 — neither 1 nor 0. -/
theorem chmod_failure_exit_status :
    processExitCode chmodFailWorld = 255 ∧
      processExitCode chmodFailWorld ≠ 1 ∧ processExitCode chmodFailWorld ≠ 0 := by
  decide

/-- Claim C5 (amended): exit status is 0 exactly on success and 1 for usage
errors, the root check and authorization denial; but an underlying operation
failure does not exit with 1: a failing `chmod`/`chown` (returning -1) makes
the process exit with status 255, and an `exec` run exits with the low 8 bits
of `system`'s raw wait status, which can be 0 even when the command failed.
The characterization holds for every world whose `chmod`/`chown` primitives
return 0 or -1, as the real system calls do. -/
theorem exit_code_characterization (w : World)
    (hc : ∀ p m, w.chmodRes p m = 0 ∨ w.chmodRes p m = -1)
    (ho : ∀ p u g, w.chownRes p u g = 0 ∨ w.chownRes p u g = -1) :
    processExitCode w = amendedExitCode w := by
  unfold processExitCode mainRun amendedExitCode
  simp only [code_ite, emod_toNat_ite]
  split_ifs <;>
    solve
      | rfl
      | decide
      | (rcases hc (w.argv.getD 3 "") (toU32 (strtol8 (w.argv.getD 2 ""))) with h2 | h2 <;>
          simp_all [modify_permissions, List.getD, neg_one_emod_256])
      | (rcases ho (w.argv.getD 4 "") (toU32 (atoi (w.argv.getD 2 "")))
            (toU32 (atoi (w.argv.getD 3 ""))) with h2 | h2 <;>
          simp_all [change_ownership, List.getD, neg_one_emod_256])

/-- Claim C5 witness: a concrete failing `chown` run, where the amended
characterization yields exit status 255. -/
theorem exit_code_characterization_witness :
    processExitCode chownFailWorld = 255 ∧ amendedExitCode chownFailWorld = 255 := by
  have h :=
    exit_code_characterization chownFailWorld (fun _ _ => Or.inr rfl)
      (fun _ _ _ => Or.inr rfl)
  exact ⟨h.trans (by decide), by decide⟩

/-- Claim C6 (confirmed): every run of the helper that terminates with a
non-zero `main` return value — usage error, authorization denial, root-check
failure, chmod/chown failure, command execution failure — has passed at least
one message to `log_message` (recorded in the audit log and syslog) before
the process exits. -/
theorem failure_paths_log (w : World) (h : (mainRun w).code ≠ 0) :
    (mainRun w).logs ≠ [] := by
  unfold mainRun
  simp only [logs_ite]
  split_ifs <;> simp [execute_command, modify_permissions, change_ownership]

/-- Claim C6 witness: the unknown-verb failure path logs an entry. -/
theorem failure_paths_log_witness :
    (mainRun unknownVerbWorld).code ≠ 0 ∧ (mainRun unknownVerbWorld).logs ≠ [] :=
  ⟨by decide, failure_paths_log unknownVerbWorld (by decide)⟩

/-- Claim C8 counterexample: the claim says every line written to the log
file has the bracketed-timestamp format; but the reachable log message
`"Executing command: a\nb"` (from `JanetHelper exec` of a command string
containing a newline) is written as two file lines, and the second line,
`"b"`, does not match the format. -/
theorem log_line_newline_breaks_format :
    "Executing command: a\nb" ∈ (mainRun newlineWorld).logs ∧
      (fileLines (logFileText sampleTime "Executing command: a\nb")).getD 1 "" = "b" ∧
      matchesFormat "b" = false := by
  decide

/-- Claim C8 (amended): each `log_message` call appends
`[YYYY-MM-DD HH:MM:SS] <message>` and a terminating newline to the log file,
and when the message contains no newline character (and the year is in the
four-digit range `%Y` prints fixed-width) the entry is exactly one line of
the claimed format.  Messages that embed caller-supplied command text can
contain newlines, and their continuation lines lack the timestamp prefix. -/
theorem log_entry_format (t : TimeStamp) (msg : String)
    (_hy : 1000 ≤ t.year) (_hy' : t.year ≤ 9999) (hnl : '\n' ∉ msg.data) :
    fileLines (logFileText t msg) = ["[" ++ strftimeYmdHMS t ++ "] " ++ msg] ∧
      matchesFormat ("[" ++ strftimeYmdHMS t ++ "] " ++ msg) = true := by
  have hlm : '\n' ∉ '[' :: ((strftimeYmdHMS t).data ++ ']' :: ' ' :: msg.data) := by
    intro hmem
    rcases List.mem_cons.mp hmem with h | h
    · exact absurd h (by decide)
    · rcases List.mem_append.mp h with h | h
      · exact newline_not_mem_strftime t h
      · rcases List.mem_cons.mp h with h | h
        · exact absurd h (by decide)
        · rcases List.mem_cons.mp h with h | h
          · exact absurd h (by decide)
          · exact hnl h
  have hmk : String.mk ('[' :: ((strftimeYmdHMS t).data ++ ']' :: ' ' :: msg.data)) =
      "[" ++ strftimeYmdHMS t ++ "] " ++ msg := by
    rw [← line_data]
  constructor
  · unfold fileLines
    rw [logFileText_data, splitLines_single _ hlm]
    exact congrArg (fun s => [s]) hmk
  · unfold matchesFormat
    rw [line_data, strftime_data]
    simp only [formatShape, checkShape, List.cons_append, List.nil_append,
      beq_self_eq_true, isDig_digitChar_mod, Bool.true_and]

/-- Claim C8 witness: a concrete timestamp and newline-free message produce
one correctly formatted log line. -/
theorem log_entry_format_witness :
    (1000 ≤ sampleTime.year ∧ sampleTime.year ≤ 9999 ∧
        '\n' ∉ "Permissions modified successfully".data) ∧
      (fileLines (logFileText sampleTime "Permissions modified successfully") =
          ["[" ++ strftimeYmdHMS sampleTime ++ "] " ++ "Permissions modified successfully"] ∧
        matchesFormat ("[" ++ strftimeYmdHMS sampleTime ++ "] " ++
            "Permissions modified successfully") = true) :=
  ⟨⟨by decide, by decide, by decide⟩,
    log_entry_format sampleTime "Permissions modified successfully" (by decide)
      (by decide) (by decide)⟩

/-- Claim C9 (confirmed): whenever the effective uid is not 0, the run logs
the root error, prints it to stderr, returns 1 and performs no privileged
action, regardless of the verb and arguments. -/
theorem non_root_rejected (w : World) (h : w.euid ≠ 0) :
    mainRun w =
      { code := 1,
        logs := ["Error: JanetHelper must be run as root"],
        stderrMsgs := ["Error: JanetHelper must be run as root"],
        actions := [] } := by
  unfold mainRun
  rw [if_pos h]

/-- Claim C9 witness: a non-root invocation is rejected with the root
error. -/
theorem non_root_rejected_witness :
    nonRootWorld.euid ≠ 0 ∧
      mainRun nonRootWorld =
        { code := 1,
          logs := ["Error: JanetHelper must be run as root"],
          stderrMsgs := ["Error: JanetHelper must be run as root"],
          actions := [] } :=
  ⟨by decide, non_root_rejected nonRootWorld (by decide)⟩

/-- Claim C10 (confirmed): an `exec` invocation uses only `argv[2]` as the
command; any further arguments (and even the `strerror` text, unused on this
path) have no effect on the run's exit code, log messages, stderr output or
performed actions. -/
theorem exec_ignores_extra_args (eu u : Nat) (prog cmd : String)
    (rest rest' : List String) (sys : String → Int) (ch : String → Nat → Int)
    (co : String → Nat → Nat → Int) (e e' : String) :
    mainRun { euid := eu, uid := u, argv := prog :: "exec" :: cmd :: rest,
              sysRes := sys, chmodRes := ch, chownRes := co, errText := e } =
    mainRun { euid := eu, uid := u, argv := prog :: "exec" :: cmd :: rest',
              sysRes := sys, chmodRes := ch, chownRes := co, errText := e' } := by
  by_cases he : eu = 0
  · rw [mainRun_exec_eval eu u prog cmd rest sys ch co e he,
      mainRun_exec_eval eu u prog cmd rest' sys ch co e' he]
  · have he' : eu ≠ 0 := he
    unfold mainRun
    rw [if_pos he', if_pos he']

end JanetHelper
